import Mathlib

/-!
Shallow embedding of the Nivaara Realty WhatsApp bot (src/server.js).

The program is an Express server with two endpoints:
* `GET /webhook` — webhook verification against `VERIFY_TOKEN`;
* `POST /webhook` — the message handler: it extracts the inbound message,
  looks up (or lazily creates) per-user conversation state in an in-memory
  `Map`, routes on text commands and interactive reply identifiers, mutates
  the state in place and sends outbound messages; the whole body is wrapped
  in `try/catch` and always acknowledges with HTTP 200.

The embedding turns each handler branch into a list of primitive `Action`s
(state-field writes and sends) executed by an interpreter `exec` that takes
a send-success oracle; a failing send models an `axios` exception, which in
the source aborts the rest of the branch and lands in the `catch`.
-/

namespace Nivaara

/-! ### JavaScript string primitives used by the handler -/

/-- Whitespace recognised by JS `String.prototype.trim` (ASCII part). -/
def isWsChar (c : Char) : Bool :=
  c = ' ' || c = '\t' || c = '\n' || c = '\r' || c = '\x0b' || c = '\x0c'

/-- `String.prototype.trim` on the underlying character list. -/
def trimL (l : List Char) : List Char :=
  ((l.dropWhile isWsChar).reverse.dropWhile isWsChar).reverse

/-- `text.trim()` of the source. -/
def jsTrim (s : String) : String := ⟨trimL s.data⟩

/-- ASCII-style lowercasing, modelling the `/i` flag of the source regexes. -/
def lowerStr (s : String) : String := ⟨s.data.map Char.toLower⟩

/-- The test `/^(hi|hello)$/i.test(text)` of src/server.js line 325. -/
def isHiHello (t : String) : Bool :=
  lowerStr t == "hi" || lowerStr t == "hello"

/-- The test `/^callback$/i.test(text)` of src/server.js line 330. -/
def isCallback (t : String) : Bool :=
  lowerStr t == "callback"

/-- Does the first list start with the second? (helper for `replace`). -/
def isPre : List Char → List Char → Bool
  | [], _ => true
  | _ :: _, [] => false
  | p :: ps, c :: cs => p == c && isPre ps cs

/-- JS `String.prototype.replace(pat, rep)`: replace the first occurrence. -/
def replFirstL (pat rep : List Char) : List Char → List Char
  | [] => []
  | c :: cs =>
    match pat with
    | [] => rep ++ c :: cs
    | p :: ps =>
      if p == c && isPre ps cs then rep ++ cs.drop ps.length
      else c :: replFirstL pat rep cs

/-- Fuelled scan for `replaceAll`; one unit of fuel is spent per character
reached, so fuel equal to the list length always suffices. -/
def replAllAux (pat rep : List Char) : Nat → List Char → List Char
  | _, [] => []
  | 0, l => l
  | fuel + 1, c :: cs =>
    match pat with
    | [] => c :: cs
    | p :: ps =>
      if p == c && isPre ps cs then rep ++ replAllAux pat rep fuel (cs.drop ps.length)
      else c :: replAllAux pat rep fuel cs

/-- JS `String.prototype.replaceAll(pat, rep)`: replace every occurrence. -/
def replAllL (pat rep l : List Char) : List Char :=
  replAllAux pat rep l.length l

/-- `s.replace(pat, rep)` (first occurrence only, as in JS). -/
def jsReplace (s pat rep : String) : String := ⟨replFirstL pat.data rep.data s.data⟩

/-- `s.replaceAll(pat, rep)`. -/
def jsReplaceAll (s pat rep : String) : String := ⟨replAllL pat.data rep.data s.data⟩

/-- The value stored for a budget selection (src/server.js line 376):
`incomingId.replace("BUD_", "").replaceAll("_", " ")`. -/
def budgetValue (i : String) : String := jsReplaceAll (jsReplace i "BUD_" "") "_" " "

/-- The value stored for a configuration selection (src/server.js line 367):
`incomingId.replace("CFG_", "")`. -/
def configValue (i : String) : String := jsReplace i "CFG_" ""

/-- JS `x || "-"` on an optional string: `null`/`undefined` and `""` are falsy. -/
def jsOrDash : Option String → String
  | none => "-"
  | some s => if s = "" then "-" else s

/-! ### Data model (src/server.js lines 58–77) -/

/-- The `step` values stored in the per-user state object. -/
inductive Step where
  | START
  | MENU
  | ASK_CONFIG
  | ASK_BUDGET
  | ASK_REASON
  | LEAD_CAPTURE
  | DONE
deriving DecidableEq

/-- The per-user conversation state object of `getUserState`. -/
structure UserState where
  step : Step
  config : Option String
  budget : Option String
  reason : Option String
deriving DecidableEq

/-- The default state installed for a new user (src/server.js lines 69–74). -/
def initState : UserState :=
  { step := Step.START, config := none, budget := none, reason := none }

/-- The in-memory `state` Map, as an association list keyed by WhatsApp id. -/
abbrev Store := List (String × UserState)

/-- `state.get(waId)` (first binding wins, as in a Map). -/
def lookupState : Store → String → Option UserState
  | [], _ => none
  | (v, s) :: rest, u => if v = u then some s else lookupState rest u

/-- `state.set(waId, s)`: replace the existing binding or append a new one. -/
def setStateL : Store → String → UserState → Store
  | [], u, s => [(u, s)]
  | (v, t) :: rest, u, s =>
    if v = u then (u, s) :: rest else (v, t) :: setStateL rest u s

/-! ### Outbound message payloads (sendWelcome, sendConfigList, …) -/

/-- Shape of the Cloud-API payloads the bot sends: an interactive
button message, an interactive list message, or a plain text message.
Button/row entries are (id, title) pairs. -/
inductive Payload where
  | interactiveButtons (dest : String) (body : String) (buttons : List (String × String))
  | interactiveList (dest : String) (body : String) (button : String)
      (sectionTitle : String) (rows : List (String × String))
  | textMsg (dest : String) (body : String)
deriving DecidableEq

/-- Body text of the welcome message (src/server.js lines 110–113). -/
def welcomeBody : String :=
  "👋 Hi! Welcome to *Nivaara Realty* 🏡\n\n" ++
  "We simplify your real estate journey across Pune and beyond.\n" ++
  "Please choose an option below to get started ⬇️"

/-- `sendWelcome` payload: the main-menu prompt with three buttons. -/
def welcomeMsg (dest : String) : Payload :=
  Payload.interactiveButtons dest welcomeBody
    [("BTN_SEARCH", "Search Property"), ("BTN_WHY", "Why Nivaara?"),
     ("BTN_EXPERT", "Talk to Expert")]

/-- `sendConfigList` payload (src/server.js lines 134–159). -/
def configListMsg (dest : String) : Payload :=
  Payload.interactiveList dest "🏠 Select configuration" "Choose" "Configuration"
    [("CFG_1BHK", "1 BHK"), ("CFG_2BHK", "2 BHK"), ("CFG_3BHK", "3 BHK"),
     ("CFG_4PLUS", "4+ BHK")]

/-- `sendBudgetList` payload (src/server.js lines 169–194). -/
def budgetListMsg (dest : String) : Payload :=
  Payload.interactiveList dest "💰 Choose your price range" "Select" "Price Range"
    [("BUD_BELOW_50", "Below ₹50L"), ("BUD_50_75", "₹50–75L"),
     ("BUD_75_1CR", "₹75L–1Cr"), ("BUD_1CR_PLUS", "₹1Cr+")]

/-- `sendReasonButtons` payload (src/server.js lines 203–220). -/
def reasonButtonsMsg (dest : String) : Payload :=
  Payload.interactiveButtons dest "Almost done! Why are you looking to buy?"
    [("RSN_SELF", "Self Use"), ("RSN_INVEST", "Investment")]

/-- Body of the final summary text built by `sendFinal` (lines 233–249):
the template interpolates `config`, `budget` and `reason` (placeholder "-"
when unset) and appends the static link and the CALLBACK hint. -/
def finalBody (st : UserState) : String :=
  "✅ Great! Here’s what you selected:\n" ++
  "• Configuration: " ++ jsOrDash st.config ++ "\n" ++
  "• Budget: " ++ jsOrDash st.budget ++ "\n" ++
  "• Purpose: " ++ jsOrDash st.reason ++ "\n\n" ++
  "👉 Browse matching properties here: https://nivaararealty.com/\n" ++
  "Or type *CALLBACK* to connect with our expert."

/-- Body of the `sendWhyNivaara` text message (src/server.js lines 265–271). -/
def whyBody : String :=
  "✅ *Why choose Nivaara?*\n" ++
  "• Comprehensive real estate consultancy across residential, commercial, land and investment deals.\n" ++
  "• Operates pan‑India and internationally, with a base in Pune and deep market expertise【222220955652304†L43-L47】.\n" ++
  "• End‑to‑end service: from search to paperwork, we manage everything【222220955652304†L94-L110】.\n" ++
  "• Trust & transparency with verified properties and honest guidance【222220955652304†L94-L110】.\n" ++
  "\nTap *Search Property* to explore listings or *Talk to Expert* for personalised advice."

/-- The callback lead-capture prompt (src/server.js line 336). -/
def callbackPromptBody : String :=
  "📞 Please share your *Name + Preferred Area + Budget* and our advisor will call you shortly."

/-- The lead-capture prompt of the BTN_EXPERT branch (src/server.js line 358). -/
def expertPromptBody : String :=
  "📞 Sure — please share your *Name + Preferred Area + Budget* and we’ll call you."

/-- The fallback prompt of the default branch (src/server.js line 394). -/
def fallbackBody : String :=
  "Type *HI* to start over, or *CALLBACK* for an expert call."

/-! ### Inbound messages -/

/-- Content of one inbound message: `message.type === "text"` carries a body;
`message.type === "interactive"` carries a `button_reply` or `list_reply`
identifier; anything else (other message types, or an interactive sub-type
that is neither) yields no text and no identifier. -/
inductive MsgContent where
  | text (body : String)
  | buttonReply (id : String)
  | listReply (id : String)
  | other
deriving DecidableEq

/-- One extracted inbound message: sender (`message.from`) plus content. -/
structure InboundMessage where
  sender : String
  content : MsgContent
deriving DecidableEq

/-- The `text` variable of the handler (src/server.js line 323): the trimmed
body for text messages, `""` otherwise. -/
def textOf : MsgContent → String
  | MsgContent.text b => jsTrim b
  | _ => ""

/-- The `incomingId` variable (src/server.js lines 313–321). -/
def incomingIdOf : MsgContent → Option String
  | MsgContent.buttonReply i => some i
  | MsgContent.listReply i => some i
  | _ => none

/-! ### The handler as an action list plus an interpreter -/

/-- Primitive effects of one handler branch, in source order: writes to the
per-user state object and outbound sends.  `sendFinal` is kept abstract
because `sendFinal(from, userState)` reads the state at send time. -/
inductive Action where
  | setStep (s : Step)
  | setConfig (c : String)
  | setBudget (b : String)
  | setReason (r : String)
  | send (o : Payload)
  | sendFinal (dest : String)
deriving DecidableEq

/-- The `switch (incomingId)` dispatch (src/server.js lines 343–398).
`switch (null)` falls to the default branch, hence the `none` case. -/
def dispatch (sender : String) : Option String → List Action
  | some i =>
    if i = "BTN_SEARCH" then
      [Action.setStep Step.ASK_CONFIG, Action.send (configListMsg sender)]
    else if i = "BTN_WHY" then
      [Action.send (Payload.textMsg sender whyBody), Action.send (welcomeMsg sender)]
    else if i = "BTN_EXPERT" then
      [Action.setStep Step.LEAD_CAPTURE, Action.send (Payload.textMsg sender expertPromptBody)]
    else if i = "CFG_1BHK" ∨ i = "CFG_2BHK" ∨ i = "CFG_3BHK" ∨ i = "CFG_4PLUS" then
      [Action.setConfig (configValue i), Action.setStep Step.ASK_BUDGET,
       Action.send (budgetListMsg sender)]
    else if i = "BUD_BELOW_50" ∨ i = "BUD_50_75" ∨ i = "BUD_75_1CR" ∨ i = "BUD_1CR_PLUS" then
      [Action.setBudget (budgetValue i),
       Action.setStep Step.ASK_REASON, Action.send (reasonButtonsMsg sender)]
    else if i = "RSN_SELF" ∨ i = "RSN_INVEST" then
      [Action.setReason (if i = "RSN_SELF" then "Self Use" else "Investment"),
       Action.setStep Step.DONE, Action.sendFinal sender, Action.send (welcomeMsg sender)]
    else
      [Action.send (Payload.textMsg sender fallbackBody)]
  | none => [Action.send (Payload.textMsg sender fallbackBody)]

/-- The routing of one inbound message (src/server.js lines 325–398), in the
source's order: the hi/hello-or-START rule, then the callback rule, then the
identifier dispatch. -/
def plan (st : UserState) (sender : String) (content : MsgContent) : List Action :=
  if isHiHello (textOf content) ∨ st.step = Step.START then
    [Action.setStep Step.MENU, Action.send (welcomeMsg sender)]
  else if isCallback (textOf content) then
    [Action.send (Payload.textMsg sender callbackPromptBody),
     Action.setStep Step.LEAD_CAPTURE]
  else
    dispatch sender (incomingIdOf content)

/-- Run the actions of a branch in order.  `sendOk k` says whether the k-th
send (counting all sends of this webhook delivery) succeeds; a failing send
throws, so the remaining actions are skipped — control lands in the `catch`.
Returns the final user state, the sends attempted (the failing one included,
it was issued once), and whether all sends succeeded. -/
def exec (sendOk : Nat → Bool) : Nat → UserState → List Action → UserState × List Payload × Bool
  | _, st, [] => (st, [], true)
  | k, st, Action.setStep s :: rest => exec sendOk k { st with step := s } rest
  | k, st, Action.setConfig c :: rest => exec sendOk k { st with config := some c } rest
  | k, st, Action.setBudget b :: rest => exec sendOk k { st with budget := some b } rest
  | k, st, Action.setReason r :: rest => exec sendOk k { st with reason := some r } rest
  | k, st, Action.send o :: rest =>
    if sendOk k then
      let r := exec sendOk (k + 1) st rest
      (r.1, o :: r.2.1, r.2.2)
    else
      (st, [o], false)
  | k, st, Action.sendFinal dest :: rest =>
    if sendOk k then
      let r := exec sendOk (k + 1) st rest
      (r.1, Payload.textMsg dest (finalBody st) :: r.2.1, r.2.2)
    else
      (st, [Payload.textMsg dest (finalBody st)], false)

/-- One `POST /webhook` delivery that did extract a message: get-or-create
the sender's state, run the routed branch, store the resulting state.  The
response status is 200 — also when a send threw (the `catch` swallows it). -/
def handleMessage (sendOk : Nat → Bool) (store : Store) (m : InboundMessage) :
    Store × List Payload × Nat :=
  let st := (lookupState store m.sender).getD initState
  let r := exec sendOk 0 st (plan st m.sender m.content)
  (setStateL store m.sender r.1, r.2.1, 200)

/-- The whole `POST /webhook` handler (src/server.js lines 303–404): a body
with no extractable message is acknowledged with 200 and no further effect;
otherwise the message is handled.  The status is 200 in every case. -/
def postWebhook (sendOk : Nat → Bool) (store : Store) (body : Option InboundMessage) :
    Store × List Payload × Nat :=
  match body with
  | none => (store, [], 200)
  | some m => handleMessage sendOk store m

/-- The all-sends-succeed oracle (no axios failure). -/
def allOk : Nat → Bool := fun _ => true

/-- Convenience: handle one delivery with all sends succeeding; returns the
new store and the messages sent. -/
def handle (store : Store) (m : InboundMessage) : Store × List Payload :=
  ((postWebhook allOk store (some m)).1, (postWebhook allOk store (some m)).2.1)

/-- The `GET /webhook` verification endpoint (src/server.js lines 288–296):
echo the challenge with 200 when `hub.mode` is "subscribe" and the token
matches `VERIFY_TOKEN`, else 403 with no body.  It never touches the store,
which is threaded through unchanged. -/
def getWebhook (verifyToken : String) (store : Store)
    (mode token challenge : Option String) : Store × Nat × Option String :=
  if mode = some "subscribe" ∧ token = some verifyToken then
    (store, 200, challenge)
  else
    (store, 403, none)

/-- Process a sequence of webhook deliveries, each with its own send oracle. -/
def processEvents : Store → List ((Nat → Bool) × Option InboundMessage) → Store
  | store, [] => store
  | store, (ok, b) :: rest => processEvents (postWebhook ok store b).1 rest

/-- The option identifiers the switch recognises: its non-default case
labels (src/server.js lines 344–386). -/
def knownIds : List String :=
  ["BTN_SEARCH", "BTN_WHY", "BTN_EXPERT",
   "CFG_1BHK", "CFG_2BHK", "CFG_3BHK", "CFG_4PLUS",
   "BUD_BELOW_50", "BUD_50_75", "BUD_75_1CR", "BUD_1CR_PLUS",
   "RSN_SELF", "RSN_INVEST"]

/-- Constraint on the value a state-writing action stores: the enums of the
data model (sends and step writes are unconstrained). -/
def actOk : Action → Prop
  | Action.setConfig c => c = "1BHK" ∨ c = "2BHK" ∨ c = "3BHK" ∨ c = "4PLUS"
  | Action.setBudget b => b = "BELOW 50" ∨ b = "50 75" ∨ b = "75 1CR" ∨ b = "1CR PLUS"
  | Action.setReason r => r = "Self Use" ∨ r = "Investment"
  | _ => True

/-- Each optional field is unset or holds a value of its declared enum. -/
def validState (s : UserState) : Prop :=
  (s.config = none ∨ s.config = some "1BHK" ∨ s.config = some "2BHK" ∨
    s.config = some "3BHK" ∨ s.config = some "4PLUS") ∧
  (s.budget = none ∨ s.budget = some "BELOW 50" ∨ s.budget = some "50 75" ∨
    s.budget = some "75 1CR" ∨ s.budget = some "1CR PLUS") ∧
  (s.reason = none ∨ s.reason = some "Self Use" ∨ s.reason = some "Investment")

/-- Every state bound in the store satisfies `validState`. -/
def validStore (store : Store) : Prop :=
  ∀ u s, lookupState store u = some s → validState s

/-- The once-set-never-unset order on the optional fields of two states. -/
def fieldsMono (s t : UserState) : Prop :=
  (s.config.isSome = true → t.config.isSome = true) ∧
  (s.budget.isSome = true → t.budget.isSome = true) ∧
  (s.reason.isSome = true → t.reason.isSome = true)

/-! ### Store lemmas -/

theorem lookup_set_self (store : Store) (u : String) (s : UserState) :
    lookupState (setStateL store u s) u = some s := by
  induction store with
  | nil => simp [setStateL, lookupState]
  | cons p rest ih =>
    obtain ⟨v, t⟩ := p
    by_cases h : v = u
    · subst h
      simp [setStateL, lookupState]
    · simp [setStateL, lookupState, h, ih]

theorem lookup_set_other (store : Store) (u v : String) (s : UserState) (h : v ≠ u) :
    lookupState (setStateL store u s) v = lookupState store v := by
  have h' : ¬u = v := fun hh => h (Eq.symm hh)
  induction store with
  | nil => simp [setStateL, lookupState, h']
  | cons p rest ih =>
    obtain ⟨w, t⟩ := p
    by_cases hw : w = u
    · subst hw
      simp [setStateL, lookupState, h']
    · simp [setStateL, lookupState, hw, ih]

theorem set_of_lookup_eq (store : Store) (u : String) (s : UserState)
    (h : lookupState store u = some s) : setStateL store u s = store := by
  induction store with
  | nil => simp [lookupState] at h
  | cons p rest ih =>
    obtain ⟨w, t⟩ := p
    by_cases hw : w = u
    · subst hw
      simp [lookupState] at h
      simp [setStateL, h]
    · simp [lookupState, hw] at h
      simp [setStateL, hw, ih h]

/-! ### Routing lemmas -/

theorem plan_hi (st : UserState) (sender : String) (content : MsgContent)
    (h : isHiHello (textOf content) = true ∨ st.step = Step.START) :
    plan st sender content = [Action.setStep Step.MENU, Action.send (welcomeMsg sender)] := by
  unfold plan
  rw [if_pos h]

theorem not_hi_of_callback (t : String) (h : isCallback t = true) : isHiHello t = false := by
  unfold isCallback at h
  simp only [beq_iff_eq] at h
  simp [isHiHello, h]

theorem plan_callback (st : UserState) (sender : String) (content : MsgContent)
    (hst : st.step ≠ Step.START) (hcb : isCallback (textOf content) = true) :
    plan st sender content =
      [Action.send (Payload.textMsg sender callbackPromptBody),
       Action.setStep Step.LEAD_CAPTURE] := by
  have hhi := not_hi_of_callback _ hcb
  unfold plan
  rw [if_neg, if_pos hcb]
  rintro (hc | hc)
  · rw [hhi] at hc
    exact Bool.false_ne_true hc
  · exact hst hc

theorem plan_dispatch (st : UserState) (sender : String) (content : MsgContent)
    (hst : st.step ≠ Step.START) (hhi : isHiHello (textOf content) = false)
    (hcb : isCallback (textOf content) = false) :
    plan st sender content = dispatch sender (incomingIdOf content) := by
  unfold plan
  rw [if_neg, if_neg]
  · rw [hcb]
    exact Bool.false_ne_true
  · rintro (hc | hc)
    · rw [hhi] at hc
      exact Bool.false_ne_true hc
    · exact hst hc

theorem dispatch_unrecognized (sender i : String) (h : i ∉ knownIds) :
    dispatch sender (some i) = [Action.send (Payload.textMsg sender fallbackBody)] := by
  simp only [knownIds, List.mem_cons, List.not_mem_nil, or_false, not_or] at h
  obtain ⟨h1, h2, h3, h4, h5, h6, h7, h8, h9, h10, h11, h12, h13⟩ := h
  simp [dispatch, h1, h2, h3, h4, h5, h6, h7, h8, h9, h10, h11, h12, h13]

/-! ### Interpreter lemmas -/

theorem fieldsMono_refl (s : UserState) : fieldsMono s s :=
  ⟨fun h => h, fun h => h, fun h => h⟩

theorem fieldsMono_trans {s t r : UserState} (h1 : fieldsMono s t) (h2 : fieldsMono t r) :
    fieldsMono s r :=
  ⟨fun h => h2.1 (h1.1 h), fun h => h2.2.1 (h1.2.1 h), fun h => h2.2.2 (h1.2.2 h)⟩

theorem exec_mono (sendOk : Nat → Bool) (acts : List Action) :
    ∀ k st, fieldsMono st (exec sendOk k st acts).1 := by
  induction acts with
  | nil =>
    intro k st
    simpa [exec] using fieldsMono_refl st
  | cons a rest ih =>
    intro k st
    cases a with
    | setStep s =>
      have h := ih k { st with step := s }
      simp only [exec]
      exact ⟨h.1, h.2.1, h.2.2⟩
    | setConfig c =>
      have h := ih k { st with config := some c }
      simp only [exec]
      exact ⟨fun _ => h.1 rfl, h.2.1, h.2.2⟩
    | setBudget b =>
      have h := ih k { st with budget := some b }
      simp only [exec]
      exact ⟨h.1, fun _ => h.2.1 rfl, h.2.2⟩
    | setReason r =>
      have h := ih k { st with reason := some r }
      simp only [exec]
      exact ⟨h.1, h.2.1, fun _ => h.2.2 rfl⟩
    | send o =>
      by_cases hk : sendOk k = true
      · simpa [exec, hk] using ih (k + 1) st
      · simp only [Bool.not_eq_true] at hk
        simpa [exec, hk] using fieldsMono_refl st
    | sendFinal dest =>
      by_cases hk : sendOk k = true
      · simpa [exec, hk] using ih (k + 1) st
      · simp only [Bool.not_eq_true] at hk
        simpa [exec, hk] using fieldsMono_refl st

theorem exec_sends_pre_ok (sendOk : Nat → Bool) (acts : List Action) :
    ∀ k st j, j + 1 < (exec sendOk k st acts).2.1.length → sendOk (k + j) = true := by
  induction acts with
  | nil =>
    intro k st j h
    simp [exec] at h
  | cons a rest ih =>
    intro k st j h
    cases a with
    | setStep s => exact ih k _ j (by simpa [exec] using h)
    | setConfig c => exact ih k _ j (by simpa [exec] using h)
    | setBudget b => exact ih k _ j (by simpa [exec] using h)
    | setReason r => exact ih k _ j (by simpa [exec] using h)
    | send o =>
      by_cases hk : sendOk k = true
      · simp only [exec, hk, if_true, List.length_cons] at h
        cases j with
        | zero => simpa using hk
        | succ j' =>
          have := ih (k + 1) st j' (by omega)
          simpa [Nat.add_assoc, Nat.add_comm 1 j'] using this
      · simp only [Bool.not_eq_true] at hk
        simp [exec, hk] at h
    | sendFinal dest =>
      by_cases hk : sendOk k = true
      · simp only [exec, hk, if_true, List.length_cons] at h
        cases j with
        | zero => simpa using hk
        | succ j' =>
          have := ih (k + 1) st j' (by omega)
          simpa [Nat.add_assoc, Nat.add_comm 1 j'] using this
      · simp only [Bool.not_eq_true] at hk
        simp [exec, hk] at h

theorem exec_valid (sendOk : Nat → Bool) (acts : List Action)
    (hacts : ∀ a ∈ acts, actOk a) :
    ∀ k st, validState st → validState (exec sendOk k st acts).1 := by
  induction acts with
  | nil =>
    intro k st hv
    simpa [exec] using hv
  | cons a rest ih =>
    have hrest : ∀ a ∈ rest, actOk a := fun a ha => hacts a (List.mem_cons_of_mem _ ha)
    have hhead : actOk a := hacts a (List.mem_cons_self _ _)
    intro k st hv
    cases a with
    | setStep s =>
      exact ih hrest k _ ⟨hv.1, hv.2.1, hv.2.2⟩
    | setConfig c =>
      refine ih hrest k _ ⟨?_, hv.2.1, hv.2.2⟩
      rcases hhead with h | h | h | h <;> simp [h]
    | setBudget b =>
      refine ih hrest k _ ⟨hv.1, ?_, hv.2.2⟩
      rcases hhead with h | h | h | h <;> simp [h]
    | setReason r =>
      refine ih hrest k _ ⟨hv.1, hv.2.1, ?_⟩
      rcases hhead with h | h <;> simp [h]
    | send o =>
      by_cases hk : sendOk k = true
      · simpa [exec, hk] using ih hrest (k + 1) st hv
      · simp only [Bool.not_eq_true] at hk
        simpa [exec, hk] using hv
    | sendFinal dest =>
      by_cases hk : sendOk k = true
      · simpa [exec, hk] using ih hrest (k + 1) st hv
      · simp only [Bool.not_eq_true] at hk
        simpa [exec, hk] using hv

theorem dispatch_actOk (sender : String) (oid : Option String) :
    ∀ a ∈ dispatch sender oid, actOk a := by
  intro a ha
  cases oid with
  | none =>
    simp only [dispatch, List.mem_cons, List.not_mem_nil, or_false] at ha
    subst ha
    trivial
  | some i =>
    simp only [dispatch] at ha
    split at ha
    · simp only [List.mem_cons, List.not_mem_nil, or_false] at ha
      rcases ha with h | h <;> subst h <;> trivial
    · split at ha
      · simp only [List.mem_cons, List.not_mem_nil, or_false] at ha
        rcases ha with h | h <;> subst h <;> trivial
      · split at ha
        · simp only [List.mem_cons, List.not_mem_nil, or_false] at ha
          rcases ha with h | h <;> subst h <;> trivial
        · split at ha
          · rename_i hc
            simp only [List.mem_cons, List.not_mem_nil, or_false] at ha
            rcases ha with h | h | h <;> subst h
            · show actOk (Action.setConfig (configValue i))
              rcases hc with hc | hc | hc | hc <;> subst hc <;>
                simp only [actOk] <;> decide
            · trivial
            · trivial
          · split at ha
            · rename_i hc
              simp only [List.mem_cons, List.not_mem_nil, or_false] at ha
              rcases ha with h | h | h <;> subst h
              · show actOk (Action.setBudget (budgetValue i))
                rcases hc with hc | hc | hc | hc <;> subst hc <;>
                  simp only [actOk] <;> decide
              · trivial
              · trivial
            · split at ha
              · rename_i hc
                simp only [List.mem_cons, List.not_mem_nil, or_false] at ha
                rcases ha with h | h | h | h <;> subst h
                · show actOk (Action.setReason (if i = "RSN_SELF" then "Self Use" else "Investment"))
                  rcases hc with hc | hc <;> subst hc <;> simp [actOk]
                · trivial
                · trivial
                · trivial
              · simp only [List.mem_cons, List.not_mem_nil, or_false] at ha
                subst ha
                trivial

theorem plan_actOk (st : UserState) (sender : String) (content : MsgContent) :
    ∀ a ∈ plan st sender content, actOk a := by
  intro a ha
  unfold plan at ha
  split at ha
  · simp only [List.mem_cons, List.not_mem_nil, or_false] at ha
    rcases ha with h | h <;> subst h <;> trivial
  · split at ha
    · simp only [List.mem_cons, List.not_mem_nil, or_false] at ha
      rcases ha with h | h <;> subst h <;> trivial
    · exact dispatch_actOk sender (incomingIdOf content) a ha

/-! ### Store-level invariant lemmas -/

theorem post_sender_lookup (sendOk : Nat → Bool) (store : Store) (m : InboundMessage) :
    lookupState (postWebhook sendOk store (some m)).1 m.sender =
      some (exec sendOk 0 ((lookupState store m.sender).getD initState)
        (plan ((lookupState store m.sender).getD initState) m.sender m.content)).1 := by
  simp [postWebhook, handleMessage, lookup_set_self]

theorem post_mono (sendOk : Nat → Bool) (store : Store) (body : Option InboundMessage)
    (u : String) (s : UserState) (h : lookupState store u = some s) :
    ∃ s', lookupState (postWebhook sendOk store body).1 u = some s' ∧ fieldsMono s s' := by
  cases body with
  | none => exact ⟨s, h, fieldsMono_refl s⟩
  | some m =>
    by_cases hu : u = m.sender
    · subst hu
      have hst : (lookupState store m.sender).getD initState = s := by
        rw [h]
        rfl
      refine ⟨_, post_sender_lookup sendOk store m, ?_⟩
      rw [hst]
      exact exec_mono sendOk _ 0 s
    · exact ⟨s, by simpa [postWebhook, handleMessage, lookup_set_other _ _ _ _ hu] using h,
        fieldsMono_refl s⟩

theorem processEvents_mono (events : List ((Nat → Bool) × Option InboundMessage)) :
    ∀ store u s, lookupState store u = some s →
      ∃ s', lookupState (processEvents store events) u = some s' ∧ fieldsMono s s' := by
  induction events with
  | nil => exact fun store u s h => ⟨s, h, fieldsMono_refl s⟩
  | cons e rest ih =>
    intro store u s h
    obtain ⟨ok, b⟩ := e
    obtain ⟨s1, h1, m1⟩ := post_mono ok store b u s h
    obtain ⟨s2, h2, m2⟩ := ih _ u s1 h1
    exact ⟨s2, by simpa [processEvents] using h2, fieldsMono_trans m1 m2⟩

theorem post_valid (sendOk : Nat → Bool) (store : Store) (body : Option InboundMessage)
    (h : validStore store) : validStore (postWebhook sendOk store body).1 := by
  cases body with
  | none => exact h
  | some m =>
    intro u s hl
    by_cases hu : u = m.sender
    · subst hu
      rw [post_sender_lookup sendOk store m] at hl
      have hs := Option.some.inj hl
      subst hs
      refine exec_valid sendOk _ (plan_actOk _ _ _) 0 _ ?_
      cases hlk : lookupState store m.sender with
      | none => simp [hlk, initState, validState]
      | some s0 =>
        simpa [hlk] using h m.sender s0 hlk
    · rw [show (postWebhook sendOk store (some m)).1 =
        setStateL store m.sender
          (exec sendOk 0 ((lookupState store m.sender).getD initState)
            (plan ((lookupState store m.sender).getD initState) m.sender m.content)).1 from by
          simp [postWebhook, handleMessage]] at hl
      rw [lookup_set_other _ _ _ _ hu] at hl
      exact h u s hl

theorem processEvents_valid (events : List ((Nat → Bool) × Option InboundMessage)) :
    ∀ store, validStore store → validStore (processEvents store events) := by
  induction events with
  | nil => exact fun store h => h
  | cons e rest ih =>
    intro store h
    obtain ⟨ok, b⟩ := e
    exact ih _ (post_valid ok store b h)

theorem validStore_nil : validStore [] := by
  intro u s h
  simp [lookupState] at h

/-! ### Dispatch branch lemmas -/

theorem dispatch_config (sender i : String)
    (hi : i = "CFG_1BHK" ∨ i = "CFG_2BHK" ∨ i = "CFG_3BHK" ∨ i = "CFG_4PLUS") :
    dispatch sender (some i) =
      [Action.setConfig (configValue i), Action.setStep Step.ASK_BUDGET,
       Action.send (budgetListMsg sender)] := by
  have h1 : ¬i = "BTN_SEARCH" := by rcases hi with h | h | h | h <;> subst h <;> decide
  have h2 : ¬i = "BTN_WHY" := by rcases hi with h | h | h | h <;> subst h <;> decide
  have h3 : ¬i = "BTN_EXPERT" := by rcases hi with h | h | h | h <;> subst h <;> decide
  simp [dispatch, h1, h2, h3, hi]

theorem dispatch_budget (sender i : String)
    (hi : i = "BUD_BELOW_50" ∨ i = "BUD_50_75" ∨ i = "BUD_75_1CR" ∨ i = "BUD_1CR_PLUS") :
    dispatch sender (some i) =
      [Action.setBudget (budgetValue i), Action.setStep Step.ASK_REASON,
       Action.send (reasonButtonsMsg sender)] := by
  have h1 : ¬i = "BTN_SEARCH" := by rcases hi with h | h | h | h <;> subst h <;> decide
  have h2 : ¬i = "BTN_WHY" := by rcases hi with h | h | h | h <;> subst h <;> decide
  have h3 : ¬i = "BTN_EXPERT" := by rcases hi with h | h | h | h <;> subst h <;> decide
  have h4 : ¬(i = "CFG_1BHK" ∨ i = "CFG_2BHK" ∨ i = "CFG_3BHK" ∨ i = "CFG_4PLUS") := by
    rcases hi with h | h | h | h <;> subst h <;> decide
  simp [dispatch, h1, h2, h3, h4, hi]

theorem dispatch_reason (sender i : String)
    (hi : i = "RSN_SELF" ∨ i = "RSN_INVEST") :
    dispatch sender (some i) =
      [Action.setReason (if i = "RSN_SELF" then "Self Use" else "Investment"),
       Action.setStep Step.DONE, Action.sendFinal sender,
       Action.send (welcomeMsg sender)] := by
  have h1 : ¬i = "BTN_SEARCH" := by rcases hi with h | h <;> subst h <;> decide
  have h2 : ¬i = "BTN_WHY" := by rcases hi with h | h <;> subst h <;> decide
  have h3 : ¬i = "BTN_EXPERT" := by rcases hi with h | h <;> subst h <;> decide
  have h4 : ¬(i = "CFG_1BHK" ∨ i = "CFG_2BHK" ∨ i = "CFG_3BHK" ∨ i = "CFG_4PLUS") := by
    rcases hi with h | h <;> subst h <;> decide
  have h5 : ¬(i = "BUD_BELOW_50" ∨ i = "BUD_50_75" ∨ i = "BUD_75_1CR" ∨ i = "BUD_1CR_PLUS") := by
    rcases hi with h | h <;> subst h <;> decide
  simp [dispatch, h1, h2, h3, h4, h5, hi]

/-! ### Claim theorems -/

/-- C1: on a POST webhook event carrying a message, if the trimmed text
case-insensitively equals "hi" or "hello", or the sender's current step is
START, the handler sends exactly the main-menu prompt and only sets the
step to MENU — whatever the content or option identifier carried — so this
rule precedes the callback rule and all identifier dispatch. -/
theorem hi_or_start_resets_to_menu (store : Store) (m : InboundMessage)
    (h : isHiHello (textOf m.content) = true ∨
      ((lookupState store m.sender).getD initState).step = Step.START) :
    handle store m =
      (setStateL store m.sender
        { (lookupState store m.sender).getD initState with step := Step.MENU },
       [welcomeMsg m.sender]) := by
  simp only [handle, postWebhook, handleMessage, plan_hi _ _ _ h]
  simp [exec, allOk]

/-- C1 witness: a brand-new user (step START) sending a budget list reply
still gets the main-menu prompt. -/
theorem hi_or_start_resets_to_menu_witness :
    handle [] ⟨"911", MsgContent.listReply "BUD_50_75"⟩ =
      (setStateL [] "911"
        { (lookupState ([] : Store) "911").getD initState with step := Step.MENU },
       [welcomeMsg "911"]) :=
  hi_or_start_resets_to_menu [] ⟨"911", MsgContent.listReply "BUD_50_75"⟩ (Or.inr rfl)

/-- C5: every POST delivery is acknowledged with status 200; a body with no
extractable message changes no state and sends nothing; and after a failing
send nothing further is attempted (every attempted send except possibly the
last one succeeded — the failed send is never retried). -/
theorem webhook_always_acknowledged (sendOk : Nat → Bool) (store : Store)
    (body : Option InboundMessage) :
    (postWebhook sendOk store body).2.2 = 200 ∧
    (body = none → (postWebhook sendOk store body).1 = store ∧
      (postWebhook sendOk store body).2.1 = []) ∧
    (∀ j, j + 1 < (postWebhook sendOk store body).2.1.length → sendOk j = true) := by
  cases body with
  | none => exact ⟨rfl, fun _ => ⟨rfl, rfl⟩, by simp [postWebhook]⟩
  | some m =>
    refine ⟨rfl, by simp, ?_⟩
    intro j hj
    have h := exec_sends_pre_ok sendOk
      (plan ((lookupState store m.sender).getD initState) m.sender m.content) 0
      ((lookupState store m.sender).getD initState) j
      (by simpa [postWebhook, handleMessage] using hj)
    simpa using h

/-- C5 witness: a delivery whose first send fails is still acknowledged
with 200. -/
theorem webhook_always_acknowledged_witness :
    (postWebhook (fun _ => false) [] (some ⟨"u", MsgContent.text "hi"⟩)).2.2 = 200 :=
  (webhook_always_acknowledged (fun _ => false) [] (some ⟨"u", MsgContent.text "hi"⟩)).1

/-- C7: GET verification echoes the caller's challenge with status 200
exactly when the mode is "subscribe" and the token matches the configured
secret; otherwise it answers 403 with no body; the store is never touched. -/
theorem webhook_verification_echo (vt : String) (store : Store)
    (mode token challenge : Option String) :
    ((mode = some "subscribe" ∧ token = some vt) →
      getWebhook vt store mode token challenge = (store, 200, challenge)) ∧
    (¬(mode = some "subscribe" ∧ token = some vt) →
      getWebhook vt store mode token challenge = (store, 403, none)) ∧
    (getWebhook vt store mode token challenge).1 = store := by
  by_cases h : mode = some "subscribe" ∧ token = some vt
  · exact ⟨fun _ => by simp [getWebhook, h], fun hn => absurd h hn, by simp [getWebhook, h]⟩
  · exact ⟨fun hp => absurd hp h, fun _ => by simp [getWebhook, h], by simp [getWebhook, h]⟩

/-- C7 witness: matching mode and token echo the concrete challenge. -/
theorem webhook_verification_echo_witness :
    getWebhook "secret" [] (some "subscribe") (some "secret") (some "12345") =
      ([], 200, some "12345") :=
  (webhook_verification_echo "secret" [] (some "subscribe") (some "secret")
    (some "12345")).1 ⟨rfl, rfl⟩

/-- C10: handling a message from sender u reads and writes only u's state:
any other user identifier looks up to exactly the same state afterwards. -/
theorem handler_touches_only_sender (sendOk : Nat → Bool) (store : Store)
    (m : InboundMessage) (v : String) (h : v ≠ m.sender) :
    lookupState (postWebhook sendOk store (some m)).1 v = lookupState store v := by
  simp only [postWebhook, handleMessage]
  exact lookup_set_other store m.sender v _ h

/-- C10 witness: a delivery from "alice" leaves "bob"'s entry unchanged. -/
theorem handler_touches_only_sender_witness :
    lookupState (postWebhook allOk
      [("bob", { step := Step.DONE, config := some "1BHK", budget := none, reason := none })]
      (some ⟨"alice", MsgContent.text "hi"⟩)).1 "bob" =
      lookupState
        [("bob", { step := Step.DONE, config := some "1BHK", budget := none, reason := none })]
        "bob" :=
  handler_touches_only_sender allOk
    [("bob", { step := Step.DONE, config := some "1BHK", budget := none, reason := none })]
    ⟨"alice", MsgContent.text "hi"⟩ "bob" (by decide)

/-- C8: when the trimmed text case-insensitively equals "callback", a user
whose step is not START gets the lead-capture prompt and moves to
LEAD_CAPTURE; a user whose step is START gets the main-menu prompt instead,
because the hi/hello-or-START rule is checked first. -/
theorem callback_checked_after_hi_rule (store : Store) (m : InboundMessage)
    (hcb : isCallback (textOf m.content) = true) :
    (((lookupState store m.sender).getD initState).step ≠ Step.START →
      handle store m =
        (setStateL store m.sender
          { (lookupState store m.sender).getD initState with step := Step.LEAD_CAPTURE },
         [Payload.textMsg m.sender callbackPromptBody])) ∧
    (((lookupState store m.sender).getD initState).step = Step.START →
      handle store m =
        (setStateL store m.sender
          { (lookupState store m.sender).getD initState with step := Step.MENU },
         [welcomeMsg m.sender])) := by
  constructor
  · intro hst
    simp only [handle, postWebhook, handleMessage, plan_callback _ _ _ hst hcb]
    simp [exec, allOk]
  · intro hst
    simp only [handle, postWebhook, handleMessage, plan_hi _ _ _ (Or.inr hst)]
    simp [exec, allOk]

/-- C8 witness: an established user typing "  CALLBACK " (whitespace and
case ignored) gets the lead-capture prompt and step LEAD_CAPTURE. -/
theorem callback_checked_after_hi_rule_witness :
    handle [("77", { step := Step.MENU, config := none, budget := none, reason := none })]
        ⟨"77", MsgContent.text "  CALLBACK "⟩ =
      (setStateL [("77", { step := Step.MENU, config := none, budget := none, reason := none })]
        "77"
        { (lookupState
            [("77", { step := Step.MENU, config := none, budget := none, reason := none })]
            "77").getD initState with step := Step.LEAD_CAPTURE },
       [Payload.textMsg "77" callbackPromptBody]) :=
  (callback_checked_after_hi_rule
    [("77", { step := Step.MENU, config := none, budget := none, reason := none })]
    ⟨"77", MsgContent.text "  CALLBACK "⟩ (by decide)).1 (by decide)

/-- C6: an event matching no rule — not hi/hello, step not START, not
callback, and any identifier it carries unrecognized — yields exactly the
fallback prompt and leaves the store (config, budget, reason, step of every
user) completely unchanged. -/
theorem unrecognized_input_fallback_no_change (store : Store) (m : InboundMessage)
    (hst : ((lookupState store m.sender).getD initState).step ≠ Step.START)
    (hhi : isHiHello (textOf m.content) = false)
    (hcb : isCallback (textOf m.content) = false)
    (hid : ∀ j, incomingIdOf m.content = some j → j ∉ knownIds) :
    handle store m = (store, [Payload.textMsg m.sender fallbackBody]) := by
  have hplan : plan ((lookupState store m.sender).getD initState) m.sender m.content =
      [Action.send (Payload.textMsg m.sender fallbackBody)] := by
    rw [plan_dispatch _ _ _ hst hhi hcb]
    cases hio : incomingIdOf m.content with
    | none => rfl
    | some j => exact dispatch_unrecognized m.sender j (hid j hio)
  cases hlk : lookupState store m.sender with
  | none =>
    exfalso
    apply hst
    rw [hlk]
    rfl
  | some s =>
    simp only [handle, postWebhook, handleMessage, hplan]
    simp [exec, allOk, hlk, set_of_lookup_eq store m.sender s hlk]

/-- C6 witness: an unknown interactive identifier from an established user
sends the fallback prompt and mutates nothing. -/
theorem unrecognized_input_fallback_no_change_witness :
    handle [("5", { step := Step.ASK_BUDGET, config := some "2BHK", budget := none, reason := none })]
        ⟨"5", MsgContent.buttonReply "WEIRD_ID"⟩ =
      ([("5", { step := Step.ASK_BUDGET, config := some "2BHK", budget := none, reason := none })],
       [Payload.textMsg "5" fallbackBody]) :=
  unrecognized_input_fallback_no_change
    [("5", { step := Step.ASK_BUDGET, config := some "2BHK", budget := none, reason := none })]
    ⟨"5", MsgContent.buttonReply "WEIRD_ID"⟩ (by decide) (by decide) (by decide)
    (fun j hj => by
      have hjj : j = "WEIRD_ID" := (Option.some.inj hj).symm
      subst hjj
      decide)

/-- C4: from a state where neither the hi/hello-or-START rule nor the
callback rule applies, a configuration list reply stores exactly that
identifier's suffix as `config`, moves to ASK_BUDGET and sends the budget
prompt; processing the same selection again from the resulting store gives
the same stored value, the same store and the same prompt (idempotence). -/
theorem config_selection_idempotent (store : Store) (sender i : String)
    (hst : ((lookupState store sender).getD initState).step ≠ Step.START)
    (hi : i = "CFG_1BHK" ∨ i = "CFG_2BHK" ∨ i = "CFG_3BHK" ∨ i = "CFG_4PLUS") :
    handle store ⟨sender, MsgContent.listReply i⟩ =
      (setStateL store sender
        { (lookupState store sender).getD initState with
            config := some (configValue i), step := Step.ASK_BUDGET },
       [budgetListMsg sender]) ∧
    handle (setStateL store sender
        { (lookupState store sender).getD initState with
            config := some (configValue i), step := Step.ASK_BUDGET })
      ⟨sender, MsgContent.listReply i⟩ =
      (setStateL store sender
        { (lookupState store sender).getD initState with
            config := some (configValue i), step := Step.ASK_BUDGET },
       [budgetListMsg sender]) := by
  have htx : textOf (MsgContent.listReply i) = "" := rfl
  have hhi : isHiHello (textOf (MsgContent.listReply i)) = false := by
    rw [htx]
    decide
  have hcb : isCallback (textOf (MsgContent.listReply i)) = false := by
    rw [htx]
    decide
  constructor
  · have hplan : plan ((lookupState store sender).getD initState) sender
        (MsgContent.listReply i) =
        [Action.setConfig (configValue i), Action.setStep Step.ASK_BUDGET,
         Action.send (budgetListMsg sender)] := by
      rw [plan_dispatch _ _ _ hst hhi hcb]
      exact dispatch_config sender i hi
    simp only [handle, postWebhook, handleMessage, hplan]
    simp [exec, allOk]
  · have hlk1 := lookup_set_self store sender
      { (lookupState store sender).getD initState with
          config := some (configValue i), step := Step.ASK_BUDGET }
    have hst1 : ((lookupState (setStateL store sender
        { (lookupState store sender).getD initState with
            config := some (configValue i), step := Step.ASK_BUDGET }) sender).getD
          initState).step ≠ Step.START := by
      rw [hlk1]
      intro hc
      exact Step.noConfusion hc
    have hplan1 : plan ((lookupState (setStateL store sender
        { (lookupState store sender).getD initState with
            config := some (configValue i), step := Step.ASK_BUDGET }) sender).getD
          initState) sender (MsgContent.listReply i) =
        [Action.setConfig (configValue i), Action.setStep Step.ASK_BUDGET,
         Action.send (budgetListMsg sender)] := by
      rw [plan_dispatch _ _ _ hst1 hhi hcb]
      exact dispatch_config sender i hi
    simp only [handle, postWebhook, handleMessage, hplan1]
    simp only [hlk1, Option.getD_some]
    simp [exec, allOk, set_of_lookup_eq _ _ _ hlk1]

/-- C4 witness: from step MENU, selecting "CFG_2BHK" twice stores "2BHK"
and sends the budget list both times, leaving the same store. -/
theorem config_selection_idempotent_witness :
    handle [("9", { step := Step.MENU, config := none, budget := none, reason := none })]
        ⟨"9", MsgContent.listReply "CFG_2BHK"⟩ =
      (setStateL [("9", { step := Step.MENU, config := none, budget := none, reason := none })]
        "9"
        { (lookupState
            [("9", { step := Step.MENU, config := none, budget := none, reason := none })]
            "9").getD initState with
            config := some (configValue "CFG_2BHK"), step := Step.ASK_BUDGET },
       [budgetListMsg "9"]) :=
  (config_selection_idempotent
    [("9", { step := Step.MENU, config := none, budget := none, reason := none })]
    "9" "CFG_2BHK" (by decide) (Or.inr (Or.inl rfl))).1

set_option maxRecDepth 8192 in
/-- C3 counterexample: a budget list reply from a user whose step is START
does not store a budget and does not send the reason options — the
hi/hello-or-START rule fires first, stores step MENU and sends the menu. -/
theorem budget_while_start_counterexample :
    (handle [] ⟨"u", MsgContent.listReply "BUD_50_75"⟩).1 =
      [("u", { step := Step.MENU, config := none, budget := none, reason := none })] ∧
    (handle [] ⟨"u", MsgContent.listReply "BUD_50_75"⟩).2 = [welcomeMsg "u"] := by
  decide

/-- C3 (amended): for an inbound event carrying a budget option identifier,
from a state whose step is not START, the handler stores the identifier's
suffix with underscores replaced by spaces — "BELOW 50", "50 75", "75 1CR"
or "1CR PLUS" respectively — sets step to ASK_REASON and sends the reason
options. -/
theorem budget_selection_stores_suffix (store : Store) (sender i : String)
    (hst : ((lookupState store sender).getD initState).step ≠ Step.START)
    (hi : i = "BUD_BELOW_50" ∨ i = "BUD_50_75" ∨ i = "BUD_75_1CR" ∨ i = "BUD_1CR_PLUS") :
    handle store ⟨sender, MsgContent.listReply i⟩ =
      (setStateL store sender
        { (lookupState store sender).getD initState with
            budget := some (budgetValue i), step := Step.ASK_REASON },
       [reasonButtonsMsg sender]) ∧
    (i = "BUD_BELOW_50" → budgetValue i = "BELOW 50") ∧
    (i = "BUD_50_75" → budgetValue i = "50 75") ∧
    (i = "BUD_75_1CR" → budgetValue i = "75 1CR") ∧
    (i = "BUD_1CR_PLUS" → budgetValue i = "1CR PLUS") := by
  have htx : textOf (MsgContent.listReply i) = "" := rfl
  have hhi : isHiHello (textOf (MsgContent.listReply i)) = false := by
    rw [htx]
    decide
  have hcb : isCallback (textOf (MsgContent.listReply i)) = false := by
    rw [htx]
    decide
  refine ⟨?_, ?_, ?_, ?_, ?_⟩
  · have hplan : plan ((lookupState store sender).getD initState) sender
        (MsgContent.listReply i) =
        [Action.setBudget (budgetValue i), Action.setStep Step.ASK_REASON,
         Action.send (reasonButtonsMsg sender)] := by
      rw [plan_dispatch _ _ _ hst hhi hcb]
      exact dispatch_budget sender i hi
    simp only [handle, postWebhook, handleMessage, hplan]
    simp [exec, allOk]
  · intro h
    subst h
    decide
  · intro h
    subst h
    decide
  · intro h
    subst h
    decide
  · intro h
    subst h
    decide

/-- C3 witness: from step ASK_BUDGET, selecting "BUD_50_75" stores
"50 75", moves to ASK_REASON and sends the reason buttons. -/
theorem budget_selection_stores_suffix_witness :
    handle [("3", { step := Step.ASK_BUDGET, config := some "2BHK", budget := none, reason := none })]
        ⟨"3", MsgContent.listReply "BUD_50_75"⟩ =
      (setStateL
        [("3", { step := Step.ASK_BUDGET, config := some "2BHK", budget := none, reason := none })]
        "3"
        { (lookupState
            [("3", { step := Step.ASK_BUDGET, config := some "2BHK", budget := none, reason := none })]
            "3").getD initState with
            budget := some (budgetValue "BUD_50_75"), step := Step.ASK_REASON },
       [reasonButtonsMsg "3"]) :=
  (budget_selection_stores_suffix
    [("3", { step := Step.ASK_BUDGET, config := some "2BHK", budget := none, reason := none })]
    "3" "BUD_50_75" (by decide) (Or.inr (Or.inl rfl))).1

set_option maxRecDepth 8192 in
/-- C2 counterexample: a reason button reply from a user whose step is
START does not store a reason, does not set step DONE and sends no summary
— the hi/hello-or-START rule fires first and sends the menu. -/
theorem reason_while_start_counterexample :
    (handle [] ⟨"u", MsgContent.buttonReply "RSN_SELF"⟩).1 =
      [("u", { step := Step.MENU, config := none, budget := none, reason := none })] ∧
    (handle [] ⟨"u", MsgContent.buttonReply "RSN_SELF"⟩).2 = [welcomeMsg "u"] := by
  decide

/-- C2 (amended): from a state whose step is not START, a reason button
reply stores "Self Use" (RSN_SELF) or "Investment" (RSN_INVEST), sets step
DONE, and sends the final summary — the template interpolating the stored
config, budget and the new reason, each rendered via the "-" placeholder
when unset, followed by the static link and the CALLBACK hint — and then
the main-menu prompt again. -/
theorem reason_selection_sends_summary (store : Store) (sender i : String)
    (hst : ((lookupState store sender).getD initState).step ≠ Step.START)
    (hi : i = "RSN_SELF" ∨ i = "RSN_INVEST") :
    handle store ⟨sender, MsgContent.buttonReply i⟩ =
      (setStateL store sender
        { (lookupState store sender).getD initState with
            reason := some (if i = "RSN_SELF" then "Self Use" else "Investment"),
            step := Step.DONE },
       [Payload.textMsg sender
          ("✅ Great! Here’s what you selected:\n" ++
           "• Configuration: " ++
             jsOrDash ((lookupState store sender).getD initState).config ++ "\n" ++
           "• Budget: " ++
             jsOrDash ((lookupState store sender).getD initState).budget ++ "\n" ++
           "• Purpose: " ++ (if i = "RSN_SELF" then "Self Use" else "Investment") ++
           "\n\n" ++
           "👉 Browse matching properties here: https://nivaararealty.com/\n" ++
           "Or type *CALLBACK* to connect with our expert."),
        welcomeMsg sender]) := by
  have htx : textOf (MsgContent.buttonReply i) = "" := rfl
  have hhi : isHiHello (textOf (MsgContent.buttonReply i)) = false := by
    rw [htx]
    decide
  have hcb : isCallback (textOf (MsgContent.buttonReply i)) = false := by
    rw [htx]
    decide
  have hplan : plan ((lookupState store sender).getD initState) sender
      (MsgContent.buttonReply i) =
      [Action.setReason (if i = "RSN_SELF" then "Self Use" else "Investment"),
       Action.setStep Step.DONE, Action.sendFinal sender,
       Action.send (welcomeMsg sender)] := by
    rw [plan_dispatch _ _ _ hst hhi hcb]
    exact dispatch_reason sender i hi
  simp only [handle, postWebhook, handleMessage, hplan]
  rcases hi with rfl | rfl <;>
    simp [exec, allOk, finalBody, jsOrDash]

/-- C2 witness: with config "2BHK" and budget "50 75" stored, selecting
Investment yields the summary quoting all three values and then the menu. -/
theorem reason_selection_sends_summary_witness :
    handle [("9", (⟨Step.ASK_REASON, some "2BHK", some "50 75", none⟩ : UserState))]
        ⟨"9", MsgContent.buttonReply "RSN_INVEST"⟩ =
      ([("9", (⟨Step.DONE, some "2BHK", some "50 75", some "Investment"⟩ : UserState))],
       [Payload.textMsg "9"
          ("✅ Great! Here’s what you selected:\n" ++
           "• Configuration: 2BHK\n" ++
           "• Budget: 50 75\n" ++
           "• Purpose: Investment\n\n" ++
           "👉 Browse matching properties here: https://nivaararealty.com/\n" ++
           "Or type *CALLBACK* to connect with our expert."),
        welcomeMsg "9"]) := by
  have h := reason_selection_sends_summary
    [("9", (⟨Step.ASK_REASON, some "2BHK", some "50 75", none⟩ : UserState))]
    "9" "RSN_INVEST" (by decide) (Or.inr rfl)
  simpa [setStateL, jsOrDash] using h

/-- C9: starting from the empty store, after any event sequence ev1:
(a) handling any further message from user u leaves an entry for u in the
store; (b) u's entry, once present, still exists after any further events
ev2 and its config/budget/reason are monotonically filled — a set field is
never back to unset; (c) every stored field is unset or a value of its
declared enum. -/
theorem state_exists_persists_and_valid
    (ev1 ev2 : List ((Nat → Bool) × Option InboundMessage)) (u : String) :
    (∀ sendOk m, m.sender = u →
      (lookupState (postWebhook sendOk (processEvents [] ev1) (some m)).1 u).isSome = true) ∧
    (∀ s, lookupState (processEvents [] ev1) u = some s →
      ∃ s', lookupState (processEvents (processEvents [] ev1) ev2) u = some s' ∧
        fieldsMono s s') ∧
    (∀ s, lookupState (processEvents [] ev1) u = some s → validState s) := by
  refine ⟨?_, ?_, ?_⟩
  · intro sendOk m hm
    rw [← hm, post_sender_lookup]
    rfl
  · intro s hs
    exact processEvents_mono ev2 _ u s hs
  · intro s hs
    exact processEvents_valid ev1 [] validStore_nil u s hs

/-- C9 witness: after "hi" then a configuration selection by user "7", the
stored state is valid per the declared enums. -/
theorem state_exists_persists_and_valid_witness :
    validState (⟨Step.ASK_BUDGET, some "2BHK", none, none⟩ : UserState) :=
  (state_exists_persists_and_valid
    [(allOk, some ⟨"7", MsgContent.text "hi"⟩),
     (allOk, some ⟨"7", MsgContent.listReply "CFG_2BHK"⟩)] [] "7").2.2
    (⟨Step.ASK_BUDGET, some "2BHK", none, none⟩ : UserState)
    (by decide)

end Nivaara
